import Mathlib

/-!
Shallow embedding of the HoRuS Travel Assistant hybrid-retrieval code
(`main.py` single-query flow and `src/embeddings.py`'s `EmbeddingManager`).

Store access, embedding-model encoding and the inference client are external
collaborators: they appear as oracle parameters (functions or `Except`-valued
step outcomes), and the embedding records which effects each code path
performs (queries issued, entities written, connections closed), so that the
control flow of the Python source is modelled faithfully, including its
exception propagation and `try/except` handlers.
-/

namespace HoRuS

/-- A hotel record as fetched by `populate_embeddings`'s Cypher query
(`hotel_id`, `name`, `star_rating`, `cleanliness_base`, `comfort_base`,
`facilities_base`, joined city and country names).  Field values are kept as
the strings they render to inside the Python f-string. -/
structure Hotel where
  id : String
  name : String
  stars : String
  clean : String
  comfort : String
  facilities : String
  city : String
  country : String
deriving DecidableEq, Repr

/-- The `search_text` built for one hotel in `populate_embeddings`
(src/src/embeddings.py lines 105-112): one Python f-string, assembled from
adjacent literals which the parser concatenates into a single template. -/
def search_text_of (h : Hotel) : String :=
  "Hotel " ++ h.name ++ " in " ++ h.city ++ ", " ++ h.country ++ ". " ++
    h.stars ++ " star rating. " ++
    "Cleanliness score: " ++ h.clean ++ ". " ++
    "Comfort score: " ++ h.comfort ++ ". " ++
    "Facilities score: " ++ h.facilities ++ "."

/-- One row returned by the dense vector search
(`hotel`, `stars`, `rating`, `score`); `format_results` reads `hotel` and
`score`.  The cosine-similarity score is modelled as a rational. -/
structure SemResult where
  hotel : String
  score : ℚ
deriving DecidableEq, Repr

/-- Nearest integer to `q * 10000` with ties to even, the rounding Python's
fixed-point formatting applies; computed on the exact fraction
`q.num * 10000 / q.den` so that it evaluates by kernel reduction. -/
def roundTenThousandths (q : ℚ) : ℤ :=
  let n : ℤ := q.num * 10000
  let d : ℤ := (q.den : ℤ)
  let f : ℤ := Int.fdiv n d
  let r : ℤ := n - f * d
  if 2 * r < d then f
  else if d < 2 * r then f + 1
  else if f % 2 = 0 then f else f + 1

/-- Left-pad a digit string with zeros to width 4. -/
def padZeros4 (s : String) : String :=
  String.mk (List.replicate (4 - s.length) '0') ++ s

/-- Fixed-point rendering with 4 decimal places, the model of Python's
`f"\x7bscore:.4f\x7d"` on the (exactly represented) score value. -/
def format4 (q : ℚ) : String :=
  let n : ℤ := roundTenThousandths q
  let sign : String := if n < 0 then "-" else ""
  let m : Nat := n.natAbs
  sign ++ toString (m / 10000) ++ "." ++ padZeros4 (toString (m % 10000))

/-- `EmbeddingManager.format_results` (src/src/embeddings.py lines 158-167):
empty (falsy) input returns the sentinel; otherwise one line per result is
built from `enumerate(results)` and the lines are joined with newlines. -/
def format_results (results : List SemResult) : String :=
  if results = [] then "No semantic matches found."
  else
    String.intercalate "\n"
      (results.enum.map (fun p =>
        toString (p.1 + 1) ++ ". " ++ p.2.hotel ++
          " (Similarity: " ++ format4 p.2.score ++ ")"))

/-- An index descriptor as declared by one of the two `CREATE VECTOR INDEX`
Cypher statements in `create_vector_indices`
(src/src/embeddings.py lines 46-65): index name, node property indexed,
`vector.dimensions` and `vector.similarity_function`. -/
structure VectorIndexDef where
  name : String
  onField : String
  dimensions : Nat
  similarity_function : String
deriving DecidableEq, Repr

/-- The two index-creation statements of `create_vector_indices`, in the
order the `queries` list holds them. -/
def create_vector_indices_defs : List VectorIndexDef :=
  [⟨"hotel_embeddings", "embedding", 384, "cosine"⟩,
   ⟨"hotel_embeddings_v2", "embedding_v2", 768, "cosine"⟩]

/-- Dimension the store's index declarations bind to an index name, looked up
from the `CREATE VECTOR INDEX` statements. -/
def indexDimension (n : String) : Option Nat :=
  (create_vector_indices_defs.find? (fun d => d.name = n)).map (fun d => d.dimensions)

/-- Output dimension of each sentence-transformer model as the code states
it: model 1 is `all-MiniLM-L6-v2` (384 dim), model 2 is
`paraphrase-albert-small-v2` (768 dim). -/
def modelDim (m : Nat) : Nat :=
  if m = 1 then 384 else 768

/-- What `create_vector_indices` does, given the outcomes of the two
`session.run` calls.  Each call sits in its own `try/except` whose handler
only logs, so both statements are always attempted and no exception ever
escapes to the caller. -/
structure CreateIndicesOutcome where
  attempted : List String
  created : List String
  errorsLogged : List String
  raised : Option String
deriving DecidableEq, Repr

/-- `EmbeddingManager.create_vector_indices` (src/src/embeddings.py lines
41-78): runs `queries[0]` then `queries[1]`, logging success or failure of
each independently. -/
def create_vector_indices (run1 run2 : Except String Unit) : CreateIndicesOutcome :=
  let r1 : List String × List String :=
    match run1 with
    | Except.ok _ => (["hotel_embeddings"], [])
    | Except.error e => ([], ["Error creating index 1: " ++ e])
  let r2 : List String × List String :=
    match run2 with
    | Except.ok _ => (["hotel_embeddings_v2"], [])
    | Except.error e => ([], ["Error creating index 2: " ++ e])
  ⟨["hotel_embeddings", "hotel_embeddings_v2"], r1.1 ++ r2.1, r1.2 ++ r2.2, none⟩

/-- What one run of `populate_embeddings` produced: the hotel ids written
back (in order), ids logged as failed, a final failure summary, and the
exception that escaped the batch, if any.  The source has no per-entity
handler, so `loggedFailures` and `summary` can only be empty/none. -/
structure PopulateOutcome where
  written : List String
  loggedFailures : List String
  summary : Option (List String)
  raised : Option String
deriving DecidableEq, Repr

/-- Loop body of `populate_embeddings`: per hotel, build the search text,
encode with both models, and run the update query; an update failure
propagates out of the loop (no `try/except` around the body). -/
def populate_go (write : Hotel → Except String Unit) :
    List Hotel → List String → PopulateOutcome
  | [], acc => ⟨acc.reverse, [], none, none⟩
  | h :: hs, acc =>
    match write h with
    | Except.ok _ => populate_go write hs (h.id :: acc)
    | Except.error e => ⟨acc.reverse, [], none, some e⟩

/-- `EmbeddingManager.populate_embeddings` (src/src/embeddings.py lines
80-129): fetches all hotels and writes `embedding`, `embedding_v2` and
`search_text` for each in turn.  `write h` stands for the
`session.run(update_query, ...)` store call for hotel `h` (the written
`search_text` being `search_text_of h`). -/
def populate_embeddings (hotels : List Hotel) (write : Hotel → Except String Unit) :
    PopulateOutcome :=
  populate_go write hotels []

/-- A query dispatched to `db.index.vector.queryNodes`: index name, `$k`
and the `$embedding` parameter. -/
structure IssuedQuery where
  index_name : String
  k : Nat
  embedding : List ℚ
deriving DecidableEq, Repr

/-- Effects of one `search_similar_hotels` call: which (model id, query
text) encodings were performed and which vector-index queries were
dispatched. -/
structure SearchEffects where
  encoded : List (Nat × String)
  issued : List IssuedQuery
deriving DecidableEq, Repr

/-- `EmbeddingManager.search_similar_hotels` (src/src/embeddings.py lines
131-156).  `encode m t` stands for `model_m.encode(t).tolist()`; `store`
answers a dispatched vector query.  A falsy (empty) `query_text` returns
`[]` before any encoding or store access. -/
def search_similar_hotels (encode : Nat → String → List ℚ)
    (store : IssuedQuery → List SemResult)
    (query_text : String) (top_k : Nat) (model_version : Nat) :
    List SemResult × SearchEffects :=
  if query_text = "" then ([], ⟨[], []⟩)
  else
    let index_name : String :=
      if model_version = 1 then "hotel_embeddings" else "hotel_embeddings_v2"
    let modelId : Nat := if model_version = 1 then 1 else 2
    let query_embedding : List ℚ := encode modelId query_text
    let q : IssuedQuery := ⟨index_name, top_k, query_embedding⟩
    (store q, ⟨[(modelId, query_text)], [q]⟩)

/-- What `EmbeddingManager.__init__` did: whether the driver was created,
whether both models loaded, the index-creation and population outcomes when
those stages ran (`none` when never reached), whether an instance was
returned, and the exception that escaped, if any. -/
structure InitOutcome where
  driverCreated : Bool
  modelsLoaded : Bool
  indices : Option CreateIndicesOutcome
  population : Option PopulateOutcome
  constructed : Bool
  raised : Option String
deriving DecidableEq, Repr

/-- `EmbeddingManager.__init__` (src/src/embeddings.py lines 7-37).
`password` is `os.environ.get("NEO4J_PASSWORD")` (`some ""` models a set but
empty variable, falsy like `None`); `load1`/`load2` are the two
`SentenceTransformer(...)` constructions, whose shared `try/except` re-raises
after logging; then `create_vector_indices` and `populate_embeddings` run
with no handler around them, so a population failure escapes `__init__`. -/
def EmbeddingManager_init (password : Option String)
    (load1 load2 : Except String Unit)
    (run1 run2 : Except String Unit)
    (hotels : List Hotel) (write : Hotel → Except String Unit) : InitOutcome :=
  if password = none ∨ password = some "" then
    ⟨false, false, none, none, false, some "NEO4J_PASSWORD not found in environment."⟩
  else
    match load1 with
    | Except.error e => ⟨true, false, none, none, false, some e⟩
    | Except.ok _ =>
      match load2 with
      | Except.error e => ⟨true, false, none, none, false, some e⟩
      | Except.ok _ =>
        match (populate_embeddings hotels write).raised with
        | some e =>
          ⟨true, true, some (create_vector_indices run1 run2),
           some (populate_embeddings hotels write), false, some e⟩
        | none =>
          ⟨true, true, some (create_vector_indices run1 run2),
           some (populate_embeddings hotels write), true, none⟩

/-- Outcomes of the collaborator steps of `get_response`'s single-query flow
(src/main.py): environment keys, component construction, intent
classification (the classified category string), baseline retrieval,
semantic search, the inference call, and — for interactive mode — the loop
body up to its normal exit. -/
structure QueryEnv where
  hf_token : Option String
  neo4j_password : Option String
  initSteps : Except String Unit
  processRes : Except String String
  baselineRes : Except String (List String)
  searchRes : Except String (List String)
  inferRes : Except String String
  loopRes : Except String Unit
deriving Repr

/-- Observable outcome of one `get_response` call: the context list handed
to `Inference.format_prompt` (when that point is reached), the returned
response, and whether `retriever.close()` / `embedder.close()` ran. -/
structure GetResponseResult where
  contextSent : Option (List String)
  response : Option String
  retrieverClosed : Bool
  embedderClosed : Bool
deriving DecidableEq, Repr

/-- `get_response` (src/main.py lines 13-116).  When `add_embeddings` is
true the function instantiates `EmbeddingManager` and returns at once.
Otherwise, after the key checks, everything runs inside one `try` whose
`except` handler logs and returns; `close()` is only called at the end of
the success path.  On the single-query path, `embedding_results` is the
semantic search result only when the intent category is `search` or
`recommendation`, and `context` is
`baseline_results + embedding_results if add_embeddings else baseline_results`,
where Python parses the conditional around the whole sum. -/
def get_response (add_embeddings : Bool) (query : String) (env : QueryEnv) :
    GetResponseResult :=
  if add_embeddings then ⟨none, none, false, false⟩
  else if env.hf_token = none then ⟨none, none, false, false⟩
  else if env.neo4j_password = none then ⟨none, none, false, false⟩
  else
    match env.initSteps with
    | Except.error _ => ⟨none, none, false, false⟩
    | Except.ok _ =>
      if query ≠ "" then
        match env.processRes with
        | Except.error _ => ⟨none, none, false, false⟩
        | Except.ok intentCategory =>
          match env.baselineRes with
          | Except.error _ => ⟨none, none, false, false⟩
          | Except.ok baseline_results =>
            let er : Except String (List String) :=
              if intentCategory = "search" ∨ intentCategory = "recommendation" then
                env.searchRes
              else Except.ok []
            match er with
            | Except.error _ => ⟨none, none, false, false⟩
            | Except.ok embedding_results =>
              let context : List String :=
                if add_embeddings then baseline_results ++ embedding_results
                else baseline_results
              match env.inferRes with
              | Except.error _ => ⟨some context, none, false, false⟩
              | Except.ok response => ⟨some context, some response, true, true⟩
      else
        match env.loopRes with
        | Except.error _ => ⟨none, none, false, false⟩
        | Except.ok _ => ⟨none, none, true, true⟩

/-- Concrete hotel record used to exercise the definitions. -/
def hGrand : Hotel :=
  ⟨"h1", "Grand Paris", "5", "9", "8", "9", "Paris", "France"⟩

/-- Second concrete hotel record. -/
def hPlaza : Hotel :=
  ⟨"h2", "Plaza", "4", "7", "7", "8", "Rome", "Italy"⟩

/-- A store-write oracle that fails exactly on hotel id `h1`. -/
def writeFailGrand : Hotel → Except String Unit :=
  fun h => if h.id = "h1" then Except.error "write failed" else Except.ok ()

/-- A store-write oracle that always succeeds. -/
def writeOk : Hotel → Except String Unit := fun _ => Except.ok ()

/-- Collaborator outcomes for a fully successful single-query run whose
classified intent is `search`, with distinct baseline and semantic
results. -/
def envOkSearch : QueryEnv :=
  ⟨some "tok", some "pw", Except.ok (), Except.ok "search",
   Except.ok ["Hotel A"], Except.ok ["Hotel B"], Except.ok "resp", Except.ok ()⟩

/-- Collaborator outcomes for a run where intent classification raises after
the retriever and embedding manager were constructed. -/
def envProcessFails : QueryEnv :=
  ⟨some "tok", some "pw", Except.ok (), Except.error "boom",
   Except.ok ["Hotel A"], Except.ok ["Hotel B"], Except.ok "resp", Except.ok ()⟩

/-- Encoding oracle whose vectors have exactly each model's output
dimension. -/
def encodeDim : Nat → String → List ℚ :=
  fun m _ => List.replicate (modelDim m) 0

/-- Store oracle returning no matches. -/
def storeEmpty : IssuedQuery → List SemResult := fun _ => []

/-- The rational 1/2, given in normal form so it evaluates by kernel
reduction. -/
def qHalf : ℚ := ⟨1, 2, by decide, by decide⟩

/-- The rational 9871/10000 in normal form. -/
def qNearOne : ℚ := ⟨9871, 10000, by decide, by decide⟩

/-- Concrete semantic search results used to exercise `format_results`. -/
def semGrand : SemResult := ⟨"Grand Paris", qHalf⟩

/-- Second concrete semantic search result. -/
def semPlaza : SemResult := ⟨"Plaza", qNearOne⟩

/-! Theorems settling the claims. -/

/-- Claim C2: for every hotel record processed by `populate_embeddings`, the
`search_text` written back is exactly
`Hotel <name> in <city>, <country>. <stars> star rating. Cleanliness score:
<clean>. Comfort score: <comfort>. Facilities score: <facilities>.`, and the
derivation is a pure function of the record: identical input records yield
byte-identical `search_text`. -/
theorem search_text_template (h : Hotel) :
    search_text_of h =
      "Hotel " ++ h.name ++ " in " ++ h.city ++ ", " ++ h.country ++ ". " ++ h.stars ++
        " star rating. Cleanliness score: " ++ h.clean ++ ". Comfort score: " ++ h.comfort ++
        ". Facilities score: " ++ h.facilities ++ "." ∧
    ∀ h1 h2 : Hotel, h1 = h2 → search_text_of h1 = search_text_of h2 := by
  constructor
  · simp only [search_text_of, String.append_assoc]
    rfl
  · intro h1 h2 he
    rw [he]

/-- Witness for C2: the template and determinism evaluated at a concrete
record. -/
theorem search_text_template_witness :
    search_text_of hGrand =
      "Hotel " ++ hGrand.name ++ " in " ++ hGrand.city ++ ", " ++ hGrand.country ++ ". " ++
        hGrand.stars ++ " star rating. Cleanliness score: " ++ hGrand.clean ++
        ". Comfort score: " ++ hGrand.comfort ++ ". Facilities score: " ++
        hGrand.facilities ++ "." ∧
    search_text_of hGrand = search_text_of hGrand ∧
    search_text_of hGrand =
      "Hotel Grand Paris in Paris, France. 5 star rating. Cleanliness score: 9. Comfort score: 8. Facilities score: 9." :=
  ⟨(search_text_template hGrand).1,
   (search_text_template hGrand).2 hGrand hGrand rfl,
   by decide⟩

/-- Claim C8: `format_results` applied to an empty list returns exactly
`No semantic matches found.`; applied to a non-empty list it returns one
line per result, 1-indexed, of the form
`<i>. <name> (Similarity: <score to 4 decimal places>)`. -/
theorem format_results_spec :
    format_results [] = "No semantic matches found." ∧
    ∀ l : List SemResult, l ≠ [] →
      format_results l =
        String.intercalate "\n"
          (l.enum.map (fun p =>
            toString (p.1 + 1) ++ ". " ++ p.2.hotel ++
              " (Similarity: " ++ format4 p.2.score ++ ")")) := by
  refine ⟨rfl, fun l hl => ?_⟩
  simp [format_results, hl]

/-- Witness for C8: a two-element result list formats to the expected
two 4-decimal lines. -/
theorem format_results_spec_witness :
    ([semGrand, semPlaza] : List SemResult) ≠ [] ∧
    format_results [semGrand, semPlaza] =
      "1. Grand Paris (Similarity: 0.5000)\n2. Plaza (Similarity: 0.9871)" :=
  ⟨by decide,
   (format_results_spec.2 [semGrand, semPlaza] (by decide)).trans (by decide)⟩

/-- Claim C9: a dense similarity search on an empty (falsy) query text
returns the empty list and performs no work: no encoding happens and no
store query is issued. -/
theorem empty_query_no_work (encode : Nat → String → List ℚ)
    (store : IssuedQuery → List SemResult) (top_k model_version : Nat) :
    search_similar_hotels encode store "" top_k model_version = ([], ⟨[], []⟩) := by
  simp [search_similar_hotels]

/-- Helper: when no write raised, the loop wrote every hotel, in order,
after the accumulated prefix. -/
theorem populate_go_raised_none (write : Hotel → Except String Unit) :
    ∀ (hs : List Hotel) (acc : List String),
      (populate_go write hs acc).raised = none →
      (populate_go write hs acc).written = acc.reverse ++ hs.map (fun h => h.id) := by
  intro hs
  induction hs with
  | nil => intro acc _; simp [populate_go]
  | cons h t ih =>
    intro acc hr
    cases hw : write h with
    | ok v =>
      rw [populate_go, hw] at hr ⊢
      rw [ih (h.id :: acc) hr]
      simp
    | error e =>
      rw [populate_go, hw] at hr
      simp at hr

/-- Helper: the loop aborts at the first failing write, leaving later
hotels unwritten and propagating the exception. -/
theorem populate_go_abort (write : Hotel → Except String Unit) (h : Hotel) (e : String)
    (post : List Hotel) (hfail : write h = Except.error e) :
    ∀ (pre : List Hotel) (acc : List String),
      (∀ x ∈ pre, write x = Except.ok ()) →
      populate_go write (pre ++ h :: post) acc =
        ⟨acc.reverse ++ pre.map (fun x => x.id), [], none, some e⟩ := by
  intro pre
  induction pre with
  | nil =>
    intro acc _
    rw [List.nil_append, populate_go, hfail]
    simp
  | cons p t ih =>
    intro acc hok
    have hp : write p = Except.ok () := hok p (by simp)
    rw [List.cons_append, populate_go, hp,
      ih (p.id :: acc) (fun x hx => hok x (by simp [hx]))]
    simp

/-- Claim C3 (refuted): a store-write failure for one entity during
`populate_embeddings` aborts the whole batch: `[hGrand, hPlaza]` with the
write of `hGrand` failing leaves `hPlaza` unprocessed, logs no failed
identifier, produces no summary, and propagates the exception. -/
theorem populate_abort_counterexample :
    (populate_embeddings [hGrand, hPlaza] writeFailGrand).written = [] ∧
    hPlaza.id ∉ (populate_embeddings [hGrand, hPlaza] writeFailGrand).written ∧
    (populate_embeddings [hGrand, hPlaza] writeFailGrand).loggedFailures = [] ∧
    (populate_embeddings [hGrand, hPlaza] writeFailGrand).summary = none ∧
    (populate_embeddings [hGrand, hPlaza] writeFailGrand).raised = some "write failed" := by
  decide

/-- Claim C3 (amended): if the store write for one entity fails, the batch
aborts there: the entities before it are written, the failing entity and
every later one are not, no identifier is logged and no summary is
produced, and the exception propagates to the caller. -/
theorem populate_write_failure_aborts (pre post : List Hotel) (h : Hotel)
    (write : Hotel → Except String Unit) (e : String)
    (hpre : ∀ x ∈ pre, write x = Except.ok ())
    (hfail : write h = Except.error e) :
    populate_embeddings (pre ++ h :: post) write =
      ⟨pre.map (fun x => x.id), [], none, some e⟩ := by
  unfold populate_embeddings
  simpa using populate_go_abort write h e post hfail pre [] hpre

/-- Witness for the amended C3: `hPlaza` writes fine, `hGrand` fails, so a
`[hPlaza, hGrand]` batch writes only `h2` and then raises. -/
theorem populate_write_failure_aborts_witness :
    (∀ x ∈ [hPlaza], writeFailGrand x = Except.ok ()) ∧
    writeFailGrand hGrand = Except.error "write failed" ∧
    populate_embeddings [hPlaza, hGrand] writeFailGrand =
      ⟨["h2"], [], none, some "write failed"⟩ :=
  ⟨by intro x hx; rw [List.mem_singleton] at hx; subst hx; rfl,
   rfl,
   by
     have h1 := populate_write_failure_aborts [hPlaza] [] hGrand writeFailGrand "write failed"
       (by intro x hx; rw [List.mem_singleton] at hx; subst hx; rfl) rfl
     simpa using h1⟩

/-- Claim C5 (refuted): when both index creations fail, `create_vector_indices`
still returns normally — no index exists, yet nothing is raised to the
caller, so total failure is not fatal. -/
theorem create_indices_never_fatal :
    (create_vector_indices (Except.error "a") (Except.error "b")).created = [] ∧
    (create_vector_indices (Except.error "a") (Except.error "b")).raised = none := by
  decide

/-- Claim C5 (amended): both index creations are always attempted; a failure
of the first is logged and the second is still tried; and the operation
never raises to the caller, even when neither index can be created. -/
theorem create_indices_continue_on_failure (run1 run2 : Except String Unit) :
    (create_vector_indices run1 run2).attempted =
      ["hotel_embeddings", "hotel_embeddings_v2"] ∧
    (create_vector_indices run1 run2).raised = none ∧
    ∀ e : String, run1 = Except.error e →
      ("Error creating index 1: " ++ e) ∈ (create_vector_indices run1 run2).errorsLogged := by
  refine ⟨rfl, rfl, ?_⟩
  intro e he
  subst he
  cases run2 <;> simp [create_vector_indices]

/-- Witness for the amended C5 at a concrete failing first creation. -/
theorem create_indices_continue_on_failure_witness :
    (Except.error "a" : Except String Unit) = Except.error "a" ∧
    ("Error creating index 1: " ++ "a") ∈
      (create_vector_indices (Except.error "a") (Except.ok ())).errorsLogged :=
  ⟨rfl,
   (create_indices_continue_on_failure (Except.error "a") (Except.ok ())).2.2 "a" rfl⟩

/-- Claim C6: `hotel_embeddings` is declared over the `embedding` field with
dimension 384 and cosine similarity, `hotel_embeddings_v2` over
`embedding_v2` with dimension 768 and cosine similarity; and every
similarity search encodes the query with the model bound to the index it
queries (model 1 with `hotel_embeddings`, model 2 with
`hotel_embeddings_v2`), so no issued query vector has a dimension different
from that of the index it is sent to. -/
theorem vector_index_dimension_consistency :
    create_vector_indices_defs =
      [⟨"hotel_embeddings", "embedding", 384, "cosine"⟩,
       ⟨"hotel_embeddings_v2", "embedding_v2", 768, "cosine"⟩] ∧
    ∀ (encode : Nat → String → List ℚ) (store : IssuedQuery → List SemResult)
      (q : String) (k v : Nat),
      (∀ m t, (encode m t).length = modelDim m) →
      ∀ iq ∈ (search_similar_hotels encode store q k v).2.issued,
        (iq.index_name = "hotel_embeddings" → iq.embedding = encode 1 q) ∧
        (iq.index_name = "hotel_embeddings_v2" → iq.embedding = encode 2 q) ∧
        indexDimension iq.index_name = some iq.embedding.length := by
  refine ⟨rfl, ?_⟩
  intro encode store q k v henc iq hiq
  by_cases hq : q = ""
  · simp [search_similar_hotels, hq] at hiq
  · by_cases hv : v = 1
    · subst hv
      simp [search_similar_hotels, hq] at hiq
      subst hiq
      refine ⟨fun _ => rfl, ?_, ?_⟩
      · intro hcontra
        simp at hcontra
      · show indexDimension "hotel_embeddings" = some (encode 1 q).length
        rw [henc 1 q]
        rfl
    · simp [search_similar_hotels, hq, hv] at hiq
      subst hiq
      refine ⟨?_, fun _ => rfl, ?_⟩
      · intro hcontra
        simp at hcontra
      · show indexDimension "hotel_embeddings_v2" = some (encode 2 q).length
        rw [henc 2 q]
        rfl

/-- Witness for C6: a dimension-respecting encoder, a concrete query and
model version 1. -/
theorem vector_index_dimension_consistency_witness :
    (∀ m t, (encodeDim m t).length = modelDim m) ∧
    ∀ iq ∈ (search_similar_hotels encodeDim storeEmpty "paris hotel" 3 1).2.issued,
      (iq.index_name = "hotel_embeddings" → iq.embedding = encodeDim 1 "paris hotel") ∧
      (iq.index_name = "hotel_embeddings_v2" → iq.embedding = encodeDim 2 "paris hotel") ∧
      indexDimension iq.index_name = some iq.embedding.length :=
  ⟨fun m t => by simp [encodeDim],
   vector_index_dimension_consistency.2 encodeDim storeEmpty "paris hotel" 3 1
     (fun m t => by simp [encodeDim])⟩

/-- Claim C7: if loading either embedding model fails, construction of the
embedding manager raises before any index creation or population work, so
no constructed instance exists and neither stage ran. -/
theorem model_load_failure_fatal (password : Option String)
    (load1 load2 run1 run2 : Except String Unit)
    (hotels : List Hotel) (write : Hotel → Except String Unit)
    (hfail : (∃ e, load1 = Except.error e) ∨ (∃ e, load2 = Except.error e)) :
    (EmbeddingManager_init password load1 load2 run1 run2 hotels write).constructed = false ∧
    (EmbeddingManager_init password load1 load2 run1 run2 hotels write).indices = none ∧
    (EmbeddingManager_init password load1 load2 run1 run2 hotels write).population = none ∧
    (EmbeddingManager_init password load1 load2 run1 run2 hotels write).raised ≠ none := by
  unfold EmbeddingManager_init
  by_cases hp : password = none ∨ password = some ""
  · rw [if_pos hp]
    simp
  · rw [if_neg hp]
    cases load1 with
    | error e => simp
    | ok v =>
      cases load2 with
      | error e => simp
      | ok v2 => rcases hfail with ⟨e, he⟩ | ⟨e, he⟩ <;> simp at he

/-- Witness for C7: model 1 fails to load; no index creation and no
population happen, and the constructor raises. -/
theorem model_load_failure_fatal_witness :
    ((∃ e, (Except.error "no model" : Except String Unit) = Except.error e) ∨
      (∃ e, (Except.ok () : Except String Unit) = Except.error e)) ∧
    ((EmbeddingManager_init (some "pw") (Except.error "no model") (Except.ok ())
        (Except.ok ()) (Except.ok ()) [hGrand] writeOk).constructed = false ∧
     (EmbeddingManager_init (some "pw") (Except.error "no model") (Except.ok ())
        (Except.ok ()) (Except.ok ()) [hGrand] writeOk).indices = none ∧
     (EmbeddingManager_init (some "pw") (Except.error "no model") (Except.ok ())
        (Except.ok ()) (Except.ok ()) [hGrand] writeOk).population = none ∧
     (EmbeddingManager_init (some "pw") (Except.error "no model") (Except.ok ())
        (Except.ok ()) (Except.ok ()) [hGrand] writeOk).raised ≠ none) :=
  ⟨Or.inl ⟨"no model", rfl⟩,
   model_load_failure_fatal (some "pw") (Except.error "no model") (Except.ok ())
     (Except.ok ()) (Except.ok ()) [hGrand] writeOk (Or.inl ⟨"no model", rfl⟩)⟩

/-- Claim C10: every successful construction of the embedding manager has,
before returning, attempted vector-index creation and run a population pass
that wrote every fetched entity; holding an instance implies population was
not skipped. -/
theorem construction_always_populates (password : Option String)
    (load1 load2 run1 run2 : Except String Unit)
    (hotels : List Hotel) (write : Hotel → Except String Unit)
    (hok : (EmbeddingManager_init password load1 load2 run1 run2 hotels write).constructed
      = true) :
    (EmbeddingManager_init password load1 load2 run1 run2 hotels write).indices =
      some (create_vector_indices run1 run2) ∧
    (EmbeddingManager_init password load1 load2 run1 run2 hotels write).population =
      some (populate_embeddings hotels write) ∧
    (populate_embeddings hotels write).written = hotels.map (fun h => h.id) := by
  unfold EmbeddingManager_init at hok ⊢
  by_cases hp : password = none ∨ password = some ""
  · rw [if_pos hp] at hok
    simp at hok
  · rw [if_neg hp] at hok ⊢
    cases load1 with
    | error e => simp at hok
    | ok v =>
      cases load2 with
      | error e => simp at hok
      | ok v2 =>
        cases hr : (populate_embeddings hotels write).raised with
        | some e =>
          rw [hr] at hok
          simp at hok
        | none =>
          refine ⟨rfl, rfl, ?_⟩
          have h1 := populate_go_raised_none write hotels [] hr
          simpa using h1

/-- Witness for C10: a fully successful construction over two hotels wrote
both of them. -/
theorem construction_always_populates_witness :
    (EmbeddingManager_init (some "pw") (Except.ok ()) (Except.ok ())
        (Except.ok ()) (Except.ok ()) [hGrand, hPlaza] writeOk).constructed = true ∧
    ((EmbeddingManager_init (some "pw") (Except.ok ()) (Except.ok ())
        (Except.ok ()) (Except.ok ()) [hGrand, hPlaza] writeOk).indices =
      some (create_vector_indices (Except.ok ()) (Except.ok ())) ∧
     (EmbeddingManager_init (some "pw") (Except.ok ()) (Except.ok ())
        (Except.ok ()) (Except.ok ()) [hGrand, hPlaza] writeOk).population =
      some (populate_embeddings [hGrand, hPlaza] writeOk) ∧
     (populate_embeddings [hGrand, hPlaza] writeOk).written =
      [hGrand, hPlaza].map (fun h => h.id)) :=
  ⟨by decide,
   construction_always_populates (some "pw") (Except.ok ()) (Except.ok ())
     (Except.ok ()) (Except.ok ()) [hGrand, hPlaza] writeOk (by decide)⟩

/-- Claim C1 (refuted by the code): on a single-query run with intent
category `search`, baseline results `["Hotel A"]` and semantic results
`["Hotel B"]`, the context handed to the inference collaborator is
`["Hotel A"]` — the baseline alone — not the concatenation
`["Hotel A"] ++ ["Hotel B"]` the claim requires, because the concatenation
is gated on the `add_embeddings` flag, which is `False` on every path that
reaches the inference call. -/
theorem context_drops_semantic_results :
    (get_response false "find a hotel" envOkSearch).response = some "resp" ∧
    (get_response false "find a hotel" envOkSearch).contextSent = some ["Hotel A"] ∧
    (["Hotel A"] : List String) ≠ ["Hotel A"] ++ ["Hotel B"] := by
  decide

/-- Claim C4 (refuted): when intent classification raises after the
retriever and embedding manager were constructed (`initSteps` succeeded),
the exception handler returns without invoking `close()` on either
connection. -/
theorem close_skipped_on_error :
    envProcessFails.initSteps = Except.ok () ∧
    (get_response false "find a hotel" envProcessFails).retrieverClosed = false ∧
    (get_response false "find a hotel" envProcessFails).embedderClosed = false := by
  refine ⟨rfl, ?_, ?_⟩ <;> decide

/-- Claim C4 (amended): on the single-query flow, the store connections are
released exactly on the full success path — `close()` runs if and only if a
response is returned; on every path where a collaborator step raises, the
handler returns without closing. -/
theorem close_only_on_success (ae : Bool) (q : String) (env : QueryEnv) (hq : q ≠ "") :
    ((get_response ae q env).retrieverClosed = true ∧
      (get_response ae q env).embedderClosed = true) ↔
      (get_response ae q env).response ≠ none := by
  unfold get_response
  cases ae
  · repeat' split
    all_goals try simp_all
    all_goals cases env.searchRes <;> simp_all
  · simp

/-- Witness for the amended C4: on a fully successful run the equivalence
holds with both sides true. -/
theorem close_only_on_success_witness :
    ("find a hotel" : String) ≠ "" ∧
    (((get_response false "find a hotel" envOkSearch).retrieverClosed = true ∧
      (get_response false "find a hotel" envOkSearch).embedderClosed = true) ↔
      (get_response false "find a hotel" envOkSearch).response ≠ none) :=
  ⟨by decide, close_only_on_success false "find a hotel" envOkSearch (by decide)⟩

end HoRuS
